import Mathlib

/-!
# Verification of `script/reward_rate.py`

A shallow embedding of the reward-rate calculator script.  The script reads
a TVL figure and an APY percentage, converts the TVL to wei, multiplies by
the APY fraction, and divides by the seconds in a year.

Python `float` values are IEEE-754 binary64 values.  We model a finite
binary64 value exactly as a canonical dyadic rational `m * 2^e` (`m` odd,
or `m = 0` and `e = 0`), plus signed infinities and NaN.  All arithmetic on
floats is exact rational arithmetic followed by round-to-nearest, ties to
even, which is precisely the IEEE-754 semantics CPython relies on.  Signed
zeros are conflated with `0` (the sign of a zero is never observable in
this program).  Strings are modelled as `List Char`, restricted to ASCII
whitespace (the only whitespace occurring in the inputs considered here).
-/

set_option maxRecDepth 40000
set_option exponentiation.threshold 1100

/-! ## Bit length and round-to-nearest-even -/

/-- Number of binary digits of `n`, with explicit fuel (the fuel is only
consumed once per halving, so `fuel = n` always suffices). -/
def nbitsAux : Nat → Nat → Nat
  | 0, _ => 0
  | fuel+1, n => if n = 0 then 0 else nbitsAux fuel (n / 2) + 1

/-- Number of binary digits of `n`: `nbits 0 = 0`, `nbits 5 = 3`. -/
def nbits (n : Nat) : Nat := nbitsAux n n

/-- Round `x / y` (for `0 ≤ x`, `0 < y`) to the nearest integer, ties to
even. -/
def rne (x y : ℤ) : ℤ :=
  let q := x / y
  let r := x % y
  if 2 * r < y then q
  else if y < 2 * r then q + 1
  else if q % 2 = 0 then q else q + 1

/-- A dyadic rational `m * 2^e`.  Canonical when `m` is odd or
`m = 0 ∧ e = 0`; all values produced by rounding are canonical, so value
equality coincides with structural equality. -/
structure Dy where
  m : ℤ
  e : ℤ
deriving DecidableEq

/-- Strip factors of two from `m` into the exponent (fuel-driven). -/
def oddify : Nat → ℤ → ℤ → ℤ × ℤ
  | 0, m, e => (m, e)
  | fuel+1, m, e => if m % 2 = 0 ∧ m ≠ 0 then oddify fuel (m / 2) (e + 1) else (m, e)

/-- Canonicalize `m * 2^e`. -/
def dyMk (m e : ℤ) : Dy :=
  if m = 0 then ⟨0, 0⟩ else
  let p := oddify m.natAbs m e
  ⟨p.1, p.2⟩

/-- The value of a dyadic as a fraction `(num, den)` with `den > 0`. -/
def dyNumDen (x : Dy) : ℤ × ℤ :=
  if 0 ≤ x.e then (x.m * 2^x.e.toNat, 1) else (x.m, 2^(-x.e).toNat)

/-- `|x| ≥ bound`? -/
def dyAbsGe (x : Dy) (bound : ℕ) : Bool :=
  if 0 ≤ x.e then bound ≤ x.m.natAbs * 2^x.e.toNat
  else bound * 2^(-x.e).toNat ≤ x.m.natAbs

/-- Does `2^k ≤ a / b` hold (for `b > 0`)? -/
def le2pow (k : ℤ) (a b : ℕ) : Bool :=
  if 0 ≤ k then b * 2^k.toNat ≤ a else b ≤ a * 2^(-k).toNat

/-- Round the fraction `n / d` (`d > 0`) to the nearest binary64-representable
dyadic: 53 significant bits, exponent at least `-1074` (subnormal range),
no upper exponent bound (overflow is checked separately), ties to even. -/
def rndFrac (n d : ℤ) : Dy :=
  if n = 0 then ⟨0, 0⟩ else
  let a := n.natAbs
  let b := d.natAbs
  let k0 : ℤ := (nbits a : ℤ) - (nbits b : ℤ)
  let k : ℤ := if le2pow k0 a b then k0 else k0 - 1
  let e : ℤ := max (k - 52) (-1074)
  let m : ℤ := if 0 ≤ e then rne a (b * 2^e.toNat) else rne (a * 2^(-e).toNat) b
  dyMk (if n < 0 then -m else m) e

/-! ## Python floats -/

/-- A CPython `float`: a finite binary64 value, a signed infinity, or NaN. -/
inductive PyFloat where
  | finite (v : Dy)
  | inf (neg : Bool)
  | nan
deriving DecidableEq

/-- Build the float nearest to `n / d` (`d > 0`), overflowing to a signed
infinity when the rounded magnitude reaches `2^1024` (IEEE-754 overflow
threshold under round-to-nearest-even). -/
def pyfin (n d : ℤ) : PyFloat :=
  let r := rndFrac n d
  if dyAbsGe r (2^1024) then PyFloat.inf (decide (n < 0)) else PyFloat.finite r

/-- Float multiplication (`float.__mul__`): exact product, one rounding. -/
def fmul : PyFloat → PyFloat → PyFloat
  | PyFloat.finite a, PyFloat.finite b =>
      let p := dyNumDen a
      let q := dyNumDen b
      pyfin (p.1 * q.1) (p.2 * q.2)
  | PyFloat.nan, _ => PyFloat.nan
  | _, PyFloat.nan => PyFloat.nan
  | PyFloat.inf s, PyFloat.finite b =>
      if b.m = 0 then PyFloat.nan else PyFloat.inf (s != decide (b.m < 0))
  | PyFloat.finite a, PyFloat.inf s =>
      if a.m = 0 then PyFloat.nan else PyFloat.inf (s != decide (a.m < 0))
  | PyFloat.inf s, PyFloat.inf t => PyFloat.inf (s != t)

/-- Float division (`float.__truediv__`): `none` models the
`ZeroDivisionError` raised on a zero divisor. -/
def fdivPy (x y : PyFloat) : Option PyFloat :=
  match y with
  | PyFloat.finite b =>
      if b.m = 0 then none
      else
        match x with
        | PyFloat.finite a =>
            let p := dyNumDen a
            let q := dyNumDen b
            let num := p.1 * q.2
            let den := p.2 * q.1
            some (pyfin (if den < 0 then -num else num) (if den < 0 then -den else den))
        | PyFloat.inf s => some (PyFloat.inf (s != decide (b.m < 0)))
        | PyFloat.nan => some PyFloat.nan
  | PyFloat.inf _ =>
      match x with
      | PyFloat.finite _ => some (PyFloat.finite ⟨0, 0⟩)
      | PyFloat.inf _ => some PyFloat.nan
      | PyFloat.nan => some PyFloat.nan
  | PyFloat.nan =>
      match x with
      | PyFloat.inf _ => some PyFloat.nan
      | _ => some PyFloat.nan

/-- `int(x)` on a float: truncation toward zero; `none` models the
`OverflowError` / `ValueError` raised on an infinity / NaN. -/
def pyint : PyFloat → Option ℤ
  | PyFloat.finite v =>
      some (if 0 ≤ v.e then v.m * 2^v.e.toNat else Int.tdiv v.m (2^(-v.e).toNat))
  | PyFloat.inf _ => none
  | PyFloat.nan => none

/-- Conversion of a Python `int` to a float, as performed by `int * float`:
round to nearest; `none` models the `OverflowError` raised when the rounded
magnitude reaches `2^1024`. -/
def intToFloat (n : ℤ) : Option Dy :=
  let r := rndFrac n 1
  if dyAbsGe r (2^1024) then none else some r

/-! ## Python `float(...)` string conversion -/

/-- ASCII whitespace stripped by `str.strip()` and by `float()`. -/
def isSp (c : Char) : Bool :=
  c = ' ' || c = '\t' || c = '\n' || c = '\x0d' || c = '\x0b' || c = '\x0c'

/-- `str.strip()` (restricted to ASCII whitespace). -/
def pystrip (l : List Char) : List Char :=
  ((l.dropWhile isSp).reverse.dropWhile isSp).reverse

/-- Each `_` must sit between two decimal digits (PEP 515); tail of the
validity check, `p` being the previous character. -/
def undAux : Char → List Char → Bool
  | _, [] => true
  | p, c :: rest =>
      if c = '_' then
        (p.isDigit && (match rest with | d :: _ => d.isDigit | [] => false))
          && undAux c rest
      else undAux c rest

/-- Underscore placement validity for `float()` input. -/
def undOk : List Char → Bool
  | [] => true
  | c :: rest => if c = '_' then false else undAux c rest

/-- Remove digit-group underscores. -/
def deUnd (l : List Char) : List Char := l.filter (fun c => c ≠ '_')

/-- Consume an optional sign; `true` means negative. -/
def parseSign : List Char → Bool × List Char
  | '+' :: r => (false, r)
  | '-' :: r => (true, r)
  | l => (false, l)

/-- Case-insensitive comparison against a lowercase word. -/
def lcEq (l : List Char) (t : List Char) : Bool := l.map Char.toLower == t

def digVal (c : Char) : ℕ := c.toNat - 48

def digsToNat (l : List Char) : ℕ := l.foldl (fun a c => 10 * a + digVal c) 0

def takeDigs (l : List Char) : List Char × List Char :=
  (l.takeWhile Char.isDigit, l.dropWhile Char.isDigit)

/-- Parse the optional exponent suffix; the whole rest of the input must be
consumed. -/
def parseExp : List Char → Option ℤ
  | [] => some 0
  | c :: r =>
      if c = 'e' || c = 'E' then
        let s := parseSign r
        let d := takeDigs s.2
        if d.1.isEmpty || !d.2.isEmpty then none
        else some (if s.1 then -(digsToNat d.1 : ℤ) else (digsToNat d.1 : ℤ))
      else none

/-- Parse an unsigned decimal literal (`digits [. digits] [exp]` or
`. digits [exp]`), returning the mantissa digits as a natural number and
the decimal exponent. -/
def parseNumber (l : List Char) : Option (ℕ × ℤ) :=
  let ip := takeDigs l
  match ip.2 with
  | '.' :: r2 =>
      let fp := takeDigs r2
      if ip.1.isEmpty && fp.1.isEmpty then none
      else (parseExp fp.2).map fun ex => (digsToNat (ip.1 ++ fp.1), ex - fp.1.length)
  | r1 =>
      if ip.1.isEmpty then none
      else (parseExp r1).map fun ex => (digsToNat ip.1, ex)

/-- The float value `± mant * 10^ex`, correctly rounded. -/
def decPyFloat (neg : Bool) (mant : ℕ) (ex : ℤ) : PyFloat :=
  let sn : ℤ := if neg then -(mant : ℤ) else (mant : ℤ)
  if 0 ≤ ex then pyfin (sn * 10^ex.toNat) 1 else pyfin sn (10^(-ex).toNat)

/-- CPython `float(s)`: strip whitespace, validate underscores, consume an
optional sign, then accept `inf`/`infinity`/`nan` (case-insensitively) or a
decimal literal.  `none` models the `ValueError` raised on malformed
input. -/
def pyfloatOfChars (l : List Char) : Option PyFloat :=
  let t0 := pystrip l
  if !undOk t0 then none else
  let t1 := deUnd t0
  let s := parseSign t1
  if lcEq s.2 ['i', 'n', 'f'] || lcEq s.2 ['i', 'n', 'f', 'i', 'n', 'i', 't', 'y'] then
    some (PyFloat.inf s.1)
  else if lcEq s.2 ['n', 'a', 'n'] then
    some PyFloat.nan
  else
    (parseNumber s.2).map fun p => decPyFloat s.1 p.1 p.2

/-! ## The script itself (`script/reward_rate.py`) -/

def SECONDS_PER_YEAR : ℤ := 31536000

def WEI_PER_ETH : ℤ := 10^18

/-- The text remaining after `s.strip()` and the optional removal of one
trailing `"%"` (with another strip), lines 6–8 of `parse_percent`. -/
def percentBody (l : List Char) : List Char :=
  let s1 := pystrip l
  if s1.getLast? = some '%' then pystrip s1.dropLast else s1

/-- `parse_percent(s)`: `float(body) / 100.0`.  `none` models the uncaught
`ValueError` on malformed input. -/
def parse_percent (l : List Char) : Option PyFloat :=
  (pyfloatOfChars (percentBody l)).bind fun f => fdivPy f (pyfin 100 1)

/-- Line 17, as a function of `tvl_wei` and `apy`:
`int(tvl_wei * apy)` (the `int` is converted to float, then multiplied). -/
def annual_step (tvl_wei : ℤ) (apy : PyFloat) : Option ℤ :=
  (intToFloat tvl_wei).bind fun d => pyint (fmul (PyFloat.finite d) apy)

/-- Line 18: `annual_rewards_wei // SECONDS_PER_YEAR` (Python floor
division). -/
def reward_rate (annual_rewards_wei : ℤ) : ℤ :=
  Int.fdiv annual_rewards_wei SECONDS_PER_YEAR

/-- The three derived integers of `main` (lines 16–18). -/
structure MainResult where
  tvl_wei : ℤ
  annual_rewards_wei : ℤ
  reward_rate_wei_per_sec : ℤ
deriving DecidableEq

/-- Lines 16–18 of `main`, starting from the two parsed floats. -/
def compute (tvl_eth apy : PyFloat) : Option MainResult :=
  ((intToFloat WEI_PER_ETH).bind fun w => pyint (fmul tvl_eth (PyFloat.finite w))).bind
    fun tvl_wei =>
  (annual_step tvl_wei apy).bind fun annual_rewards_wei =>
  some ⟨tvl_wei, annual_rewards_wei, reward_rate annual_rewards_wei⟩

/-- `main` (lines 12–18): parse the two input strings, then compute.
`none` models an uncaught exception. -/
def main' (tvlIn apyIn : List Char) : Option MainResult :=
  (pyfloatOfChars (pystrip tvlIn)).bind fun tvl_eth =>
  (parse_percent apyIn).bind fun apy =>
  compute tvl_eth apy

/-- Lines 20–23: the four printed lines.  `print` with several arguments
joins them with single spaces. -/
def outputLines (r : MainResult) : List String :=
  [ "tvl_wei: " ++ toString r.tvl_wei
  , "annual_rewards_wei: " ++ toString r.annual_rewards_wei
  , "rewardRate (wei/sec): " ++ toString r.reward_rate_wei_per_sec
  , "addPool(address(0), " ++ toString r.reward_rate_wei_per_sec ++ " )" ]

/-- Follows the spec's words for claim C5: the exact mathematical product
`tvl_smallest_unit × apy_fraction`, truncated toward zero. -/
def specExactTruncProduct (tvl : ℤ) (x : Dy) : ℤ :=
  if 0 ≤ x.e then tvl * x.m * 2^x.e.toNat
  else Int.tdiv (tvl * x.m) (2^(-x.e).toNat)

/-- The exact product `tvl × apy` rounded once to binary64 (the float
actually produced by line 17's multiplication when `tvl` is exactly
representable). -/
def roundedProduct (tvl : ℤ) (x : Dy) : PyFloat :=
  pyfin (tvl * (dyNumDen x).1) (dyNumDen x).2

/-- `roundedProduct` truncated toward zero, as `int(...)` does. -/
def roundedProductTrunc (tvl : ℤ) (x : Dy) : Option ℤ :=
  pyint (roundedProduct tvl x)


/-! ## Sign lemmas for the rounding pipeline -/

theorem rne_nonneg {x y : ℤ} (hx : 0 ≤ x) (hy : 0 < y) : 0 ≤ rne x y := by
  have hq : 0 ≤ x / y := Int.ediv_nonneg hx hy.le
  simp only [rne]
  split_ifs <;> omega

theorem oddify_fst_nonpos (fuel : ℕ) : ∀ (m e : ℤ), m ≤ 0 → (oddify fuel m e).1 ≤ 0 := by
  induction fuel with
  | zero => intro m e h; exact h
  | succ n ih =>
      intro m e h
      simp only [oddify]
      split_ifs with hc
      · refine ih _ _ ?_
        have h2 := Int.ediv_le_ediv (by norm_num : (0:ℤ) < 2) h
        simpa using h2
      · exact h

theorem dyMk_m_nonpos {m e : ℤ} (h : m ≤ 0) : (dyMk m e).m ≤ 0 := by
  simp only [dyMk]
  split_ifs with h0
  · exact le_refl 0
  · exact oddify_fst_nonpos _ _ _ h

theorem rndFrac_m_nonpos {n d : ℤ} (hn : n ≤ 0) (hd : 0 < d) : (rndFrac n d).m ≤ 0 := by
  simp only [rndFrac]
  split_ifs with h0 he hneg he hneg
  all_goals try exact le_refl 0
  all_goals try
    first
    | (refine dyMk_m_nonpos ?_
       refine neg_nonpos_of_nonneg ?_
       refine rne_nonneg (by positivity) ?_
       positivity)
    | omega

theorem pyint_finite_nonpos {v : Dy} {z : ℤ} (hv : v.m ≤ 0)
    (h : pyint (PyFloat.finite v) = some z) : z ≤ 0 := by
  simp only [pyint] at h
  injection h with h
  rw [← h]
  split_ifs with he
  · exact mul_nonpos_of_nonpos_of_nonneg hv (pow_nonneg (by norm_num) _)
  · have h2 : 0 ≤ (-v.m).tdiv (2^(-v.e).toNat) :=
      Int.tdiv_nonneg (by omega) (pow_nonneg (by norm_num) _)
    have h3 := Int.neg_tdiv v.m (2^(-v.e).toNat)
    omega

theorem step_nonpos {nn dd z : ℤ} (hnn : nn ≤ 0) (hdd : 0 < dd)
    (h : pyint (pyfin nn dd) = some z) : z ≤ 0 := by
  simp only [pyfin] at h
  split_ifs at h with hov
  · exact absurd h (by simp [pyint])
  · exact pyint_finite_nonpos (rndFrac_m_nonpos hnn hdd) h

theorem intToFloat_nonpos {n : ℤ} {d : Dy} (hn : n ≤ 0)
    (h : intToFloat n = some d) : d.m ≤ 0 := by
  simp only [intToFloat] at h
  split_ifs at h with hov
  injection h with h
  rw [← h]
  exact rndFrac_m_nonpos hn one_pos

theorem dyNumDen_fst_nonpos {x : Dy} (h : x.m ≤ 0) : (dyNumDen x).1 ≤ 0 := by
  simp only [dyNumDen]
  split_ifs
  · exact mul_nonpos_of_nonpos_of_nonneg h (pow_nonneg (by norm_num) _)
  · exact h

theorem dyNumDen_fst_pos {x : Dy} (h : 0 < x.m) : 0 < (dyNumDen x).1 := by
  simp only [dyNumDen]
  split_ifs
  · exact mul_pos h (pow_pos (by norm_num) _)
  · exact h

theorem dyNumDen_snd_pos (x : Dy) : 0 < (dyNumDen x).2 := by
  simp only [dyNumDen]
  split_ifs
  · exact one_pos
  · exact pow_pos (by norm_num) _

theorem reward_rate_nonpos {a : ℤ} (h : a ≤ 0) : reward_rate a ≤ 0 := by
  unfold reward_rate SECONDS_PER_YEAR
  rw [Int.fdiv_eq_ediv _ (by norm_num)]
  have h2 := Int.ediv_le_ediv (by norm_num : (0:ℤ) < 31536000) h
  simpa using h2

/-! ## List lemmas about stripping -/

theorem dropWhile_sp_append {w : List Char} (l : List Char) (hw : ∀ c ∈ w, isSp c) :
    (w ++ l).dropWhile isSp = l.dropWhile isSp := by
  induction w with
  | nil => rfl
  | cons c w ih =>
      rw [List.cons_append, List.dropWhile_cons, if_pos (hw c (List.mem_cons_self c w))]
      exact ih (fun d hd => hw d (List.mem_cons_of_mem c hd))

theorem dropWhile_sp_nil {w : List Char} (hw : ∀ c ∈ w, isSp c) :
    w.dropWhile isSp = [] := by
  have h2 := dropWhile_sp_append ([] : List Char) hw
  simpa using h2

theorem lstrip_append_ws {s w : List Char} (hw : ∀ c ∈ w, isSp c) :
    (s ++ w).dropWhile isSp =
      if (s.dropWhile isSp).isEmpty then [] else s.dropWhile isSp ++ w := by
  induction s with
  | nil => simp [dropWhile_sp_nil hw]
  | cons c s ih =>
      by_cases hc : isSp c
      · rw [List.cons_append, List.dropWhile_cons, if_pos hc, List.dropWhile_cons,
          if_pos hc, ih]
      · rw [List.cons_append, List.dropWhile_cons, if_neg hc, List.dropWhile_cons,
          if_neg hc]
        simp

theorem pystrip_pad {w1 w2 : List Char} (s : List Char)
    (h1 : ∀ c ∈ w1, isSp c) (h2 : ∀ c ∈ w2, isSp c) :
    pystrip (w1 ++ s ++ w2) = pystrip s := by
  unfold pystrip
  rw [List.append_assoc, dropWhile_sp_append _ h1, lstrip_append_ws h2]
  by_cases he : (s.dropWhile isSp).isEmpty
  · rw [if_pos he, List.isEmpty_iff.mp he]
  · rw [if_neg he, List.reverse_append,
      dropWhile_sp_append _ (fun c hc => h2 c (List.mem_reverse.mp hc))]

theorem parse_percent_strip_congr {l1 l2 : List Char} (h : pystrip l1 = pystrip l2) :
    parse_percent l1 = parse_percent l2 := by
  unfold parse_percent percentBody
  rw [h]

theorem lstrip_append_pct (s : List Char) :
    (s ++ ['%']).dropWhile isSp = s.dropWhile isSp ++ ['%'] := by
  induction s with
  | nil => rfl
  | cons c s ih =>
      by_cases hc : isSp c
      · rw [List.cons_append, List.dropWhile_cons, if_pos hc, List.dropWhile_cons,
          if_pos hc, ih]
      · rw [List.cons_append, List.dropWhile_cons, if_neg hc, List.dropWhile_cons,
          if_neg hc, List.cons_append]

theorem rstrip_concat_pct (x : List Char) :
    ((x ++ ['%']).reverse.dropWhile isSp).reverse = x ++ ['%'] := by
  rw [List.reverse_append]
  show (('%' :: x.reverse).dropWhile isSp).reverse = x ++ ['%']
  rw [List.dropWhile_cons, if_neg (by decide), List.reverse_cons, List.reverse_reverse]

theorem dropWhile_sp_idem (l : List Char) :
    (l.dropWhile isSp).dropWhile isSp = l.dropWhile isSp := by
  induction l with
  | nil => rfl
  | cons c l ih =>
      by_cases hc : isSp c
      · rw [List.dropWhile_cons, if_pos hc, ih]
      · rw [List.dropWhile_cons, if_neg hc, List.dropWhile_cons, if_neg hc]

theorem pystrip_concat_pct (s : List Char) :
    pystrip (s ++ ['%']) = s.dropWhile isSp ++ ['%'] := by
  unfold pystrip
  rw [lstrip_append_pct, rstrip_concat_pct]

theorem parse_percent_concat_pct {s : List Char} (h : (pystrip s).getLast? ≠ some '%') :
    parse_percent (s ++ ['%']) = parse_percent s := by
  simp only [parse_percent, percentBody]
  rw [pystrip_concat_pct, List.getLast?_concat, if_pos rfl, List.dropLast_concat,
    if_neg h]
  have h2 : pystrip (s.dropWhile isSp) = pystrip s := by
    unfold pystrip
    rw [dropWhile_sp_idem]
  rw [h2]

/-! ## Claims -/

/-- Claim C1, counterexample: for TVL input `"1000.0"` and APY input
`"8%"`, the computed reward rate is `2536783358701`
(`80000000000000000000 // 31536000`), not the claimed `2536783358390576`. -/
theorem C1_spec_rate_wrong :
    (main' (String.toList "1000.0") (String.toList "8%")).map
        (fun r => r.reward_rate_wei_per_sec) = some 2536783358701 ∧
    (2536783358701 : ℤ) ≠ 2536783358390576 :=
  ⟨by decide, by decide⟩

/-- Claim C1 (amended): running the calculator on TVL input `"1000.0"` and
APY input `"8%"` yields `tvl_wei = 10^21` and
`annual_rewards_wei = 8 * 10^19` exactly as claimed, but
`reward_rate_wei_per_sec = 2536783358701`, the floor of
`80000000000000000000 / 31536000`. -/
theorem C1_scenarioA :
    main' (String.toList "1000.0") (String.toList "8%") =
      some ⟨1000000000000000000000, 80000000000000000000, 2536783358701⟩ := by
  decide

/-- Claim C2: for every non-negative `annual_rewards_smallest_unit`, the
computed per-second rate is the floor of the exact quotient by `31536000`
(floor semantics, not rounding). -/
theorem C2_floor_division (a : ℤ) (h : 0 ≤ a) :
    reward_rate a = ⌊(a : ℚ) / (31536000 : ℚ)⌋ := by
  have hcast : ((31536000 : ℚ)) = ((31536000 : ℕ) : ℚ) := by norm_num
  rw [hcast, Rat.floor_intCast_div_natCast]
  unfold reward_rate SECONDS_PER_YEAR
  rw [Int.fdiv_eq_ediv _ (by norm_num)]
  norm_num

theorem C2_witness :
    (0 : ℤ) ≤ 80000000000000000000 ∧
    reward_rate 80000000000000000000 =
      ⌊((80000000000000000000 : ℤ) : ℚ) / (31536000 : ℚ)⌋ :=
  ⟨by decide, C2_floor_division 80000000000000000000 (by decide)⟩

/-- Claim C3: `parse_percent` yields the binary64 value `0.08`
(`5764607523034235 * 2^-56`) on `"8"`, `"8%"` and `"  8 % "`; moreover
surrounding whitespace never changes the result, and appending one `"%"`
to an input whose stripped form does not already end in `"%"` never
changes the result. -/
theorem C3_percent_parsing :
    parse_percent (String.toList "8") =
      some (PyFloat.finite ⟨5764607523034235, -56⟩) ∧
    parse_percent (String.toList "8%") =
      some (PyFloat.finite ⟨5764607523034235, -56⟩) ∧
    parse_percent (String.toList "  8 % ") =
      some (PyFloat.finite ⟨5764607523034235, -56⟩) ∧
    (∀ w1 s w2 : List Char, (∀ c ∈ w1, isSp c) → (∀ c ∈ w2, isSp c) →
      parse_percent (w1 ++ s ++ w2) = parse_percent s) ∧
    (∀ s : List Char, (pystrip s).getLast? ≠ some '%' →
      parse_percent (s ++ ['%']) = parse_percent s) := by
  refine ⟨by decide, by decide, by decide, fun w1 s w2 h1 h2 => ?_, fun s h => ?_⟩
  · exact parse_percent_strip_congr (pystrip_pad s h1 h2)
  · exact parse_percent_concat_pct h

theorem C3_witness :
    (∀ c ∈ String.toList "  ", isSp c) ∧ (∀ c ∈ String.toList " ", isSp c) ∧
    parse_percent (String.toList "  " ++ String.toList "8" ++ String.toList " ") =
      parse_percent (String.toList "8") :=
  ⟨by decide, by decide,
    C3_percent_parsing.2.2.2.1 (String.toList "  ") (String.toList "8")
      (String.toList " ") (by decide) (by decide)⟩

/-- Claim C4: whenever the text remaining after stripping and `%`-removal is
rejected by the float conversion, `parse_percent` fails (the error
propagates through the division); in particular on `"abc"`, `""` and
`"%"`. -/
theorem C4_invalid_input :
    (∀ l : List Char, pyfloatOfChars (percentBody l) = none →
      parse_percent l = none) ∧
    parse_percent (String.toList "abc") = none ∧
    parse_percent (String.toList "") = none ∧
    parse_percent (String.toList "%") = none := by
  refine ⟨fun l h => ?_, by decide, by decide, by decide⟩
  unfold parse_percent
  rw [h]
  rfl

theorem C4_witness :
    pyfloatOfChars (percentBody (String.toList "abc")) = none ∧
    parse_percent (String.toList "abc") = none :=
  ⟨by decide, C4_invalid_input.1 (String.toList "abc") (by decide)⟩

/-- Claim C6 (amended): on success the program prints exactly four lines in
order; the first three are as claimed, but the fourth line carries a space
before the closing parenthesis — `addPool(address(0), <rate> )` — because
`print` inserts a separator before the `")"` argument. -/
theorem C6_output_format (r : MainResult) :
    outputLines r =
      [ "tvl_wei: " ++ toString r.tvl_wei
      , "annual_rewards_wei: " ++ toString r.annual_rewards_wei
      , "rewardRate (wei/sec): " ++ toString r.reward_rate_wei_per_sec
      , "addPool(address(0), " ++ toString r.reward_rate_wei_per_sec ++ " )" ] := rfl

/-- Claim C6, counterexample: a successful run prints a fourth line that is
not the claimed `addPool(address(0), <rate>)` — it has an extra space. -/
theorem C6_counterexample :
    (main' (String.toList "1000.0") (String.toList "8%")).map outputLines =
      some [ "tvl_wei: 1000000000000000000000"
           , "annual_rewards_wei: 80000000000000000000"
           , "rewardRate (wei/sec): 2536783358701"
           , "addPool(address(0), 2536783358701 )" ] ∧
    ("addPool(address(0), 2536783358701 )" : String) ≠
      "addPool(address(0), 2536783358701)" :=
  ⟨by decide, by decide⟩

/-- Claim C8: TVL input `"1.0"` with APY input `"100%"` or `"100"` yields
`tvl_wei = annual_rewards_wei = 10^18` and a rate of `31709791983`. -/
theorem C8_scenarioC :
    main' (String.toList "1.0") (String.toList "100%") =
      some ⟨1000000000000000000, 1000000000000000000, 31709791983⟩ ∧
    main' (String.toList "1.0") (String.toList "100") =
      some ⟨1000000000000000000, 1000000000000000000, 31709791983⟩ :=
  ⟨by decide, by decide⟩

/-- Claim C9: the underlying float conversion is more lenient than plain
decimal numerals: `"inf"` parses to infinity (and `inf / 100 = inf`),
`"nan"` parses to NaN, and `"1_0%"` parses to `10` (underscore digit
separators), giving the binary64 value `0.1` (`3602879701896397 * 2^-55`). -/
theorem C9_lenient_floats :
    parse_percent (String.toList "inf") = some (PyFloat.inf false) ∧
    parse_percent (String.toList "nan") = some PyFloat.nan ∧
    parse_percent (String.toList "1_0%") =
      some (PyFloat.finite ⟨3602879701896397, -55⟩) ∧
    pyfloatOfChars (String.toList "1_0") = some (PyFloat.finite ⟨5, 1⟩) :=
  ⟨by decide, by decide, by decide, by decide⟩

/-- Claim C10: for `-31536000 < a < 0` the computed rate is `-1` (floor
division rounds toward negative infinity), although truncation toward zero
would give `0`. -/
theorem C10_small_negative (a : ℤ) (h1 : -31536000 < a) (h2 : a < 0) :
    reward_rate a = -1 ∧ Int.tdiv a SECONDS_PER_YEAR = 0 := by
  constructor
  · unfold reward_rate SECONDS_PER_YEAR
    rw [Int.fdiv_eq_ediv _ (by norm_num)]
    have key : a = (a + 31536000) + (-1) * 31536000 := by ring
    rw [key, Int.add_mul_ediv_right _ _ (by norm_num : (31536000:ℤ) ≠ 0),
      Int.ediv_eq_zero_of_lt (by omega) (by omega)]
    norm_num
  · unfold SECONDS_PER_YEAR
    have h3 : a = -(-a) := by ring
    rw [h3, Int.neg_tdiv, Int.tdiv_eq_ediv (by omega) (by norm_num),
      Int.ediv_eq_zero_of_lt (by omega) (by omega), neg_zero]

theorem C10_witness :
    (-31536000 : ℤ) < -5 ∧ (-5 : ℤ) < 0 ∧
    reward_rate (-5) = -1 ∧ Int.tdiv (-5) SECONDS_PER_YEAR = 0 :=
  ⟨by decide, by decide, (C10_small_negative (-5) (by decide) (by decide)).1,
    (C10_small_negative (-5) (by decide) (by decide)).2⟩

/-! ## Claims C5 and C7 -/

theorem dyNumDen_mk_natCast (m : ℤ) (k : ℕ) :
    dyNumDen ⟨m, (k : ℤ)⟩ = (m * 2^k, 1) := by
  simp only [dyNumDen]
  rw [if_pos (Int.ofNat_nonneg k), Int.toNat_ofNat]

/-- Claim C5, counterexample: at `tvl_smallest_unit = 10^21` and
`apy_fraction` the binary64 value `0.08`, line 17 computes
`80000000000000000000`, while the exact product truncated toward zero is
`80000000000000001665`: the product is rounded to binary64 before
truncation. -/
theorem C5_counterexample :
    annual_step (10^21) (PyFloat.finite ⟨5764607523034235, -56⟩) =
      some 80000000000000000000 ∧
    specExactTruncProduct (10^21) ⟨5764607523034235, -56⟩ = 80000000000000001665 ∧
    (80000000000000000000 : ℤ) ≠ 80000000000000001665 :=
  ⟨by decide, by decide, by decide⟩

/-- Claim C5 (amended): for every pair `(tvl_smallest_unit, apy_fraction)`,
the computed `annual_rewards_smallest_unit` is the exact product rounded
once to the nearest binary64 value and then truncated toward zero — not
the truncation of the exact product.  (The hypotheses say that
`tvl_smallest_unit` is itself exactly representable in binary64 and within
range, which holds for every `tvl_wei` the program produces.) -/
theorem C5_amended (t m : ℤ) (k : ℕ) (x : Dy)
    (hrep : rndFrac t 1 = ⟨m, (k : ℤ)⟩) (hval : m * 2^k = t)
    (hbound : t.natAbs < 2^1024) :
    annual_step t (PyFloat.finite x) = roundedProductTrunc t x := by
  have habs : m.natAbs * 2^k = t.natAbs := by
    have h2 : ((2:ℤ)^k).natAbs = 2^k := by
      rw [Int.natAbs_pow]
      rfl
    rw [← hval, Int.natAbs_mul, h2]
  have hov : dyAbsGe ⟨m, (k : ℤ)⟩ (2^1024) = false := by
    simp only [dyAbsGe]
    rw [if_pos (Int.ofNat_nonneg k), Int.toNat_ofNat, decide_eq_false_iff_not]
    omega
  have hITF : intToFloat t = some ⟨m, (k : ℤ)⟩ := by
    simp only [intToFloat, hrep, hov]
    simp
  unfold annual_step
  rw [hITF]
  show pyint (fmul (PyFloat.finite ⟨m, (k : ℤ)⟩) (PyFloat.finite x)) =
    roundedProductTrunc t x
  have hfm : fmul (PyFloat.finite ⟨m, (k : ℤ)⟩) (PyFloat.finite x) =
      pyfin (t * (dyNumDen x).1) (dyNumDen x).2 := by
    show pyfin ((dyNumDen ⟨m, (k : ℤ)⟩).1 * (dyNumDen x).1)
        ((dyNumDen ⟨m, (k : ℤ)⟩).2 * (dyNumDen x).2) = _
    rw [dyNumDen_mk_natCast]
    show pyfin (m * 2^k * (dyNumDen x).1) (1 * (dyNumDen x).2) = _
    rw [hval, one_mul]
  rw [hfm]
  rfl

theorem C5_witness :
    rndFrac (10^21) 1 = ⟨476837158203125, ((21 : ℕ) : ℤ)⟩ ∧
    (476837158203125 : ℤ) * 2^(21 : ℕ) = 10^21 ∧
    ((10:ℤ)^21).natAbs < 2^1024 ∧
    annual_step (10^21) (PyFloat.finite ⟨5764607523034235, -56⟩) =
      roundedProductTrunc (10^21) ⟨5764607523034235, -56⟩ :=
  ⟨by decide, by decide, by decide,
    C5_amended (10^21) 476837158203125 21 ⟨5764607523034235, -56⟩
      (by decide) (by decide) (by decide)⟩

/-- Claim C7, counterexample: a negative TVL input does not always produce a
negative rate — `"-1e-19"` (APY `"8%"`) completes with rate `0` — and does
not always complete — `"-1e300"` overflows to `-inf` at line 16 and
`int(...)` raises. -/
theorem C7_counterexample :
    main' (String.toList "-1e-19") (String.toList "8%") = some ⟨0, 0, 0⟩ ∧
    ¬ ((0 : ℤ) < 0) ∧
    main' (String.toList "-1e300") (String.toList "8%") = none :=
  ⟨by decide, by decide, by decide⟩

/-- Claim C7 (amended): for every negative finite TVL float and positive
finite APY fraction, no step of the computation validates the sign: when
the pipeline completes (no overflow to infinity) it produces a
non-positive — possibly zero — reward rate. -/
theorem C7_amended (t p : Dy) (hneg : t.m < 0) (hpos : 0 < p.m) (r : MainResult)
    (h : compute (PyFloat.finite t) (PyFloat.finite p) = some r) :
    r.reward_rate_wei_per_sec ≤ 0 := by
  unfold compute at h
  obtain ⟨tw, htw, h⟩ := Option.bind_eq_some.mp h
  obtain ⟨aw, haw, h⟩ := Option.bind_eq_some.mp h
  injection h with h
  subst h
  obtain ⟨w, hw, htw2⟩ := Option.bind_eq_some.mp htw
  have hw' : w = ⟨3814697265625, 18⟩ := by
    have hW : intToFloat WEI_PER_ETH = some (⟨3814697265625, 18⟩ : Dy) := by decide
    rw [hW] at hw
    injection hw with hw
    exact hw.symm
  subst hw'
  have h1 : tw ≤ 0 := by
    have e1 : fmul (PyFloat.finite t) (PyFloat.finite (⟨3814697265625, 18⟩ : Dy)) =
        pyfin ((dyNumDen t).1 * (dyNumDen ⟨3814697265625, 18⟩).1)
          ((dyNumDen t).2 * (dyNumDen ⟨3814697265625, 18⟩).2) := rfl
    rw [e1] at htw2
    refine step_nonpos ?_ ?_ htw2
    · exact mul_nonpos_of_nonpos_of_nonneg (dyNumDen_fst_nonpos hneg.le)
        (by decide : (0:ℤ) ≤ (dyNumDen ⟨3814697265625, 18⟩).1)
    · exact mul_pos (dyNumDen_snd_pos t) (dyNumDen_snd_pos _)
  have h2 : aw ≤ 0 := by
    unfold annual_step at haw
    obtain ⟨d2, hd2, haw2⟩ := Option.bind_eq_some.mp haw
    have hm2 : d2.m ≤ 0 := intToFloat_nonpos h1 hd2
    have e2 : fmul (PyFloat.finite d2) (PyFloat.finite p) =
        pyfin ((dyNumDen d2).1 * (dyNumDen p).1)
          ((dyNumDen d2).2 * (dyNumDen p).2) := rfl
    rw [e2] at haw2
    refine step_nonpos ?_ ?_ haw2
    · exact mul_nonpos_of_nonpos_of_nonneg (dyNumDen_fst_nonpos hm2)
        (dyNumDen_fst_pos hpos).le
    · exact mul_pos (dyNumDen_snd_pos _) (dyNumDen_snd_pos _)
  show reward_rate aw ≤ 0
  exact reward_rate_nonpos h2

theorem C7_witness :
    (⟨-1, 0⟩ : Dy).m < 0 ∧ (0:ℤ) < (⟨5764607523034235, -56⟩ : Dy).m ∧
    compute (PyFloat.finite ⟨-1, 0⟩) (PyFloat.finite ⟨5764607523034235, -56⟩) =
      some ⟨-1000000000000000000, -80000000000000000, -2536783359⟩ ∧
    ((-2536783359 : ℤ) ≤ 0) :=
  ⟨by decide, by decide, by decide,
    C7_amended ⟨-1, 0⟩ ⟨5764607523034235, -56⟩ (by decide) (by decide)
      ⟨-1000000000000000000, -80000000000000000, -2536783359⟩ (by decide)⟩
